import Mathlib

/-!
Verification development for the AI-Crowd-Control repository.

The definitions below are shallow embeddings of the Python source:
pure classification functions become Lean functions over `Nat`/`Int`/`ℚ`
(the float weight `0.3` is modelled as the rational `3/10`), label strings
are kept as Lean `String`s exactly as the source returns them, and stateful
methods become explicit state-passing functions over record types.
-/

namespace CrowdControl

/-- Embeds `CrowdMonitoringSystem.calculate_crowd_density` (src/app.py,
lines 451-459): person count to density label. -/
def calculate_crowd_density (person_count : Nat) : String :=
  if person_count = 0 then "EMPTY"
  else if person_count ≤ 2 then "LOW"
  else if person_count ≤ 5 then "MEDIUM"
  else "HIGH"

/-- The score computed by `CrowdMonitoringSystem.calculate_alert_level`
(src/app.py, line 462): `total = person_count + (face_count * 0.3)`,
with the float `0.3` modelled as the rational `3/10`. -/
def alert_total (person_count face_count : Nat) : ℚ :=
  (person_count : ℚ) + (face_count : ℚ) * (3 / 10)

/-- Embeds `CrowdMonitoringSystem.calculate_alert_level` (src/app.py,
lines 461-470): threshold table over the weighted score. -/
def calculate_alert_level (person_count face_count : Nat) : String :=
  if alert_total person_count face_count = 0 then "NORMAL"
  else if alert_total person_count face_count ≤ 3 then "NORMAL"
  else if alert_total person_count face_count ≤ 6 then "CAUTION"
  else "ALERT"

/-- Rank of an alert label, for stating monotonicity:
NORMAL < CAUTION < ALERT. -/
def alertRank (label : String) : Nat :=
  if label = "NORMAL" then 0 else if label = "CAUTION" then 1 else 2

/-- Embeds the crowd-density classification branch of
`CrowdMonitoringWrapper.analyze_crowd_behavior`
(src/src/models/model_registry.py, lines 157-176).  Only the density label
is modelled here; the congestion score and behaviour flags computed in the
same branch do not feed back into the label. -/
def analyze_crowd_behavior_density (total_people : Nat) : String :=
  if total_people = 0 then "EMPTY"
  else if total_people ≤ 2 then "LOW"
  else if total_people ≤ 5 then "MEDIUM"
  else if total_people ≤ 10 then "HIGH"
  else "VERY_HIGH"

/-- A frame, abstracted to its pixel dimensions (the only frame data the
detector adapters' post-processing reads: `frame.shape[:2]`). -/
structure Frame where
  width : Nat
  height : Nat
deriving DecidableEq, Repr

/-- One detection record as built by the adapters: the Python dict
`\x7b'bbox': [x1, y1, x2, y2], 'confidence': score, 'class': label\x7d`. -/
structure Detection where
  bbox : List Int
  confidence : ℚ
  cls : String
deriving DecidableEq, Repr

/-- Python `int()` applied to a rational: truncation toward zero. -/
def int_trunc (q : ℚ) : Int :=
  if 0 ≤ q then ⌊q⌋ else -⌊-q⌋

/-- One raw box from the YOLO model: absolute `xyxy` float coordinates
plus a confidence score, modelled over ℚ. -/
structure RawBox where
  x1 : ℚ
  y1 : ℚ
  x2 : ℚ
  y2 : ℚ
  score : ℚ
deriving DecidableEq, Repr

/-- Embeds `YOLODetector.detect_persons`
(src/src/detection/yolo_detector.py, lines 127-184).  The underlying
model call is the black box: it either raises (caught by the adapter's
`except`, which returns `[]`) or yields a list of raw boxes.  Kept boxes
(score above 0.3) are int-cast coordinate lists — the source applies no
clamping to the frame bounds. -/
def detect_persons (frame : Option Frame)
    (model_result : Except String (List RawBox)) : List Detection :=
  match frame with
  | none => []
  | some _ =>
    match model_result with
    | .error _ => []
    | .ok boxes =>
      (boxes.filter fun b => (3 : ℚ) / 10 < b.score).map fun b =>
        { bbox := [int_trunc b.x1, int_trunc b.y1, int_trunc b.x2, int_trunc b.y2]
          confidence := b.score
          cls := "person" }

/-- One raw MediaPipe face detection: relative bounding box
(xmin, ymin, width, height as fractions of the frame) plus a score. -/
structure RelBox where
  xmin : ℚ
  ymin : ℚ
  width : ℚ
  height : ℚ
  score : ℚ
deriving DecidableEq, Repr

/-- Embeds `FaceDetector.detect_faces`
(src/src/detection/face_detector.py, lines 32-95).  The MediaPipe call is
the black box (error ⇒ caught, `[]` returned).  Kept detections (score
above the construction-time threshold) have their relative coordinates
scaled to pixels, int-cast, and clamped: `x = max(0, x)`,
`y = max(0, y)`, `x2 = min(x + width, w)`, `y2 = min(y + height, h)`. -/
def detect_faces (confidence_threshold : ℚ) (frame : Option Frame)
    (mp_result : Except String (List RelBox)) : List Detection :=
  match frame with
  | none => []
  | some fr =>
    match mp_result with
    | .error _ => []
    | .ok boxes =>
      (boxes.filter fun b => confidence_threshold < b.score).map fun b =>
        let x := max 0 (int_trunc (b.xmin * fr.width))
        let y := max 0 (int_trunc (b.ymin * fr.height))
        let w := int_trunc (b.width * fr.width)
        let h := int_trunc (b.height * fr.height)
        { bbox := [x, y, min (x + w) (fr.width : Int), min (y + h) (fr.height : Int)]
          confidence := b.score
          cls := "face" }

/-- The `self.stats` record of `CrowdMonitoringSystem` (src/app.py,
lines 79-86).  The `timestamp`, `person_detections` and `face_detections`
keys are absent from the initial dict and only added by the processing
paths; the absent state is modelled as `none` / `[]`. -/
structure Stats where
  person_count : Nat
  face_count : Nat
  crowd_density : String
  alert_level : String
  last_activity : String
  system_status : String
  timestamp : Option String
  person_detections : List Detection
  face_detections : List Detection
deriving DecidableEq, Repr

/-- The initial statistics record built in
`CrowdMonitoringSystem.__init__` (src/app.py, lines 79-86). -/
def initial_stats : Stats :=
  { person_count := 0
    face_count := 0
    crowd_density := "EMPTY"
    alert_level := "NORMAL"
    last_activity := "System ready - upload a file or use camera"
    system_status := "Ready"
    timestamp := none
    person_detections := []
    face_detections := [] }

/-- The mutable fields of `CrowdMonitoringSystem` that the claims under
study read or write (src/app.py, lines 50-88). -/
structure SystemState where
  is_monitoring : Bool
  models_loaded : Bool
  is_initializing : Bool
  stats : Stats
deriving DecidableEq, Repr

/-- Embeds `CrowdMonitoringSystem.stop_processing` (src/app.py,
lines 472-475): it clears the `is_monitoring` flag and prints — nothing
else. -/
def stop_processing (s : SystemState) : SystemState :=
  { s with is_monitoring := false }

/-- Environment of one `initialize_models` call: whether
`load_detection_modules` returns real classes (rather than the
`(None, None, None)` failure triple), and whether one of the later
construction steps raises. -/
structure InitEnv where
  import_ok : Bool
  step_raises : Bool
deriving DecidableEq, Repr

/-- Embeds `CrowdMonitoringSystem.initialize_models` (src/app.py,
lines 101-165), returning the call's result and the state after it.
Mirrors the source's control flow: already-loaded and
already-initializing early returns; then `is_initializing = True`; then,
inside the `try`, the module-import check whose failure path is a plain
`return False` (reaching neither flag reset); the `except` branch resets
both flags; the success path sets `models_loaded = True` and clears
`is_initializing`. -/
def init_models (env : InitEnv) (s : SystemState) : Bool × SystemState :=
  if s.models_loaded then (true, s)
  else if s.is_initializing then (false, s)
  else
    let s1 : SystemState := { s with is_initializing := true }
    if env.import_ok then
      if env.step_raises then
        (false, { s1 with is_initializing := false, models_loaded := false })
      else
        (true, { s1 with models_loaded := true, is_initializing := false })
    else
      (false, s1)

/-- Environment of one `process_image` call: whether `cv2.imread`
loads the image, whether any step between loading and the stats update
raises (enhancement, detection, drawing, writing, encoding — all of
them precede `self.stats.update` in the source), the detection lists
the models produce, and the timestamp string. -/
structure ImageEnv where
  image_loads : Bool
  pipeline_raises : Bool
  person_detections : List Detection
  face_detections : List Detection
  timestamp : String
deriving DecidableEq, Repr

/-- Result record of `process_image`: the `success` flag and `message`
of the returned dict (the processed-image payload of the success path is
I/O output, not system state). -/
structure ImageResult where
  success : Bool
  message : String
deriving DecidableEq, Repr

/-- Embeds `CrowdMonitoringSystem.process_image` (src/app.py,
lines 234-327): models-not-loaded and image-load failures return early;
an exception anywhere in the pipeline is caught and returns failure; only
the success path reaches `self.stats.update` (line 305), which happens
after every fallible step. -/
def process_image (env : ImageEnv) (s : SystemState) :
    ImageResult × SystemState :=
  if ¬ s.models_loaded then ({ success := false, message := "Models not loaded" }, s)
  else if ¬ env.image_loads then
    ({ success := false, message := "Could not load image" }, s)
  else if env.pipeline_raises then
    ({ success := false, message := "Image processing error" }, s)
  else
    let pd := env.person_detections
    let fd := env.face_detections
    let new_stats : Stats :=
      { person_count := pd.length
        face_count := fd.length
        crowd_density := calculate_crowd_density pd.length
        alert_level := calculate_alert_level pd.length fd.length
        last_activity := "Processed image: " ++ toString pd.length ++
          " people, " ++ toString fd.length ++ " faces detected"
        system_status := "Image Processed"
        timestamp := some env.timestamp
        person_detections := pd
        face_detections := fd }
    ({ success := true, message := "" }, { s with stats := new_stats })

/-- What `process_video` does with one frame of the loop (src/app.py,
lines 358-433), restricted to detection and drawing: the frame number,
whether detections were recomputed at this frame
(`frame_num % 10 == 0`), and the person/face boxes actually drawn onto
the output frame. -/
structure FrameOutput where
  frame_num : Nat
  detections_recomputed : Bool
  drawn_person_boxes : List Detection
  drawn_face_boxes : List Detection
deriving DecidableEq, Repr

/-- The loop-carried detection variables of `process_video`
(`person_detections` / `face_detections`), which persist across
iterations between recomputations. -/
structure VideoLoopState where
  person_detections : List Detection
  face_detections : List Detection
deriving DecidableEq, Repr

/-- One iteration of the `process_video` while-loop (src/app.py,
lines 358-433).  On every 10th frame the detection variables are
recomputed (`detect_p` / `detect_f` stand for the detector calls on that
frame).  The drawing loops iterate over
`person_detections if frame_num % 10 == 0 else []` (lines 412 and 421),
so the boxes drawn are the fresh detections on multiples of 10 and the
empty list otherwise. -/
def process_video_frame (detect_p detect_f : Nat → List Detection)
    (st : VideoLoopState) (frame_num : Nat) : VideoLoopState × FrameOutput :=
  let st' : VideoLoopState :=
    if frame_num % 10 = 0 then
      { person_detections := detect_p frame_num
        face_detections := detect_f frame_num }
    else st
  (st',
   { frame_num := frame_num
     detections_recomputed := frame_num % 10 == 0
     drawn_person_boxes := if frame_num % 10 = 0 then st'.person_detections else []
     drawn_face_boxes := if frame_num % 10 = 0 then st'.face_detections else [] })

/-- Runs `k` consecutive iterations of the `process_video` loop starting
at frame number `start`, threading the loop-carried detection variables
and collecting each frame's output. -/
def run_frames (detect_p detect_f : Nat → List Detection) :
    VideoLoopState → Nat → Nat → VideoLoopState × List FrameOutput
  | st, _, 0 => (st, [])
  | st, start, k + 1 =>
    let r := process_video_frame detect_p detect_f st start
    let rest := run_frames detect_p detect_f r.1 (start + 1) k
    (rest.1, r.2 :: rest.2)

/-- The per-frame outputs of a full `process_video` run over `total`
frames (frame numbers 1..total, as in the source, where `frame_num` is
incremented before the batch check).  The detection variables start out
unassigned in the source and are first read only after being assigned;
they are modelled as initially empty. -/
def process_video_outputs (detect_p detect_f : Nat → List Detection)
    (total : Nat) : List FrameOutput :=
  (run_frames detect_p detect_f ⟨[], []⟩ 1 total).2

end CrowdControl

namespace CrowdControl

/-- C1: with the default thresholds, `calculate_crowd_density` returns
EMPTY at 0, LOW on 1..2, MEDIUM on 3..5 and HIGH from 6 up; in particular
the inputs 0,1,2,3,5,6,11 yield EMPTY,LOW,LOW,MEDIUM,MEDIUM,HIGH,HIGH. -/
theorem C1_density_tiers (n : Nat) :
    (n = 0 → calculate_crowd_density n = "EMPTY") ∧
    (1 ≤ n ∧ n ≤ 2 → calculate_crowd_density n = "LOW") ∧
    (3 ≤ n ∧ n ≤ 5 → calculate_crowd_density n = "MEDIUM") ∧
    (6 ≤ n → calculate_crowd_density n = "HIGH") ∧
    (calculate_crowd_density 0 = "EMPTY" ∧ calculate_crowd_density 1 = "LOW" ∧
     calculate_crowd_density 2 = "LOW" ∧ calculate_crowd_density 3 = "MEDIUM" ∧
     calculate_crowd_density 5 = "MEDIUM" ∧ calculate_crowd_density 6 = "HIGH" ∧
     calculate_crowd_density 11 = "HIGH") := by
  refine ⟨?_, ?_, ?_, ?_, by decide⟩ <;>
    (intro h; unfold calculate_crowd_density; split_ifs <;> first | rfl | omega)

/-- Closed witness for C1 at the concrete input 4. -/
theorem C1_density_tiers_witness :
    calculate_crowd_density 4 = "MEDIUM" :=
  (C1_density_tiers 4).2.2.1 (by omega)

/-- C2: `calculate_alert_level` computes the score
`person_count + 0.3 * face_count` and returns NORMAL when the score is at
most 3, CAUTION when it is above 3 and at most 6, ALERT when it is above
6; in particular (3,0) yields NORMAL and (5,5) yields ALERT. -/
theorem C2_alert_thresholds (p f : Nat) :
    (alert_total p f ≤ 3 → calculate_alert_level p f = "NORMAL") ∧
    (3 < alert_total p f → alert_total p f ≤ 6 →
      calculate_alert_level p f = "CAUTION") ∧
    (6 < alert_total p f → calculate_alert_level p f = "ALERT") ∧
    (calculate_alert_level 3 0 = "NORMAL" ∧
     calculate_alert_level 5 5 = "ALERT") := by
  refine ⟨?_, ?_, ?_,
    by constructor <;> norm_num [calculate_alert_level, alert_total]⟩ <;>
    (intros
     unfold calculate_alert_level
     split_ifs <;> first | rfl | linarith)

/-- Closed witness for C2 at the concrete input (4, 2). -/
theorem C2_alert_thresholds_witness :
    calculate_alert_level 4 2 = "CAUTION" :=
  (C2_alert_thresholds 4 2).2.1 (by norm_num [alert_total])
    (by norm_num [alert_total])

/-- Helper for C7: the threshold table applied by `calculate_alert_level`
is monotone in the score. -/
theorem alertRank_mono_of_total_le (p f p2 f2 : Nat)
    (h : alert_total p f ≤ alert_total p2 f2) :
    alertRank (calculate_alert_level p f) ≤
      alertRank (calculate_alert_level p2 f2) := by
  unfold calculate_alert_level
  split_ifs <;> first | decide | (exfalso; linarith)

/-- C7: `calculate_alert_level` is monotonically non-decreasing in each
argument with respect to the rank NORMAL < CAUTION < ALERT. -/
theorem C7_alert_monotone (p p2 f f2 : Nat) :
    (p ≤ p2 → alertRank (calculate_alert_level p f) ≤
      alertRank (calculate_alert_level p2 f)) ∧
    (f ≤ f2 → alertRank (calculate_alert_level p f) ≤
      alertRank (calculate_alert_level p f2)) := by
  constructor
  · intro h
    apply alertRank_mono_of_total_le
    unfold alert_total
    have : (p : ℚ) ≤ (p2 : ℚ) := by exact_mod_cast h
    linarith
  · intro h
    apply alertRank_mono_of_total_le
    unfold alert_total
    have : (f : ℚ) ≤ (f2 : ℚ) := by exact_mod_cast h
    nlinarith

/-- Closed witness for C7 at the concrete inputs (2,7) and (0,11),
exercising both monotonicity directions. -/
theorem C7_alert_monotone_witness :
    alertRank (calculate_alert_level 2 0) ≤
      alertRank (calculate_alert_level 7 0) ∧
    alertRank (calculate_alert_level 0 3) ≤
      alertRank (calculate_alert_level 0 11) :=
  ⟨(C7_alert_monotone 2 7 0 0).1 (by omega),
   (C7_alert_monotone 0 0 3 11).2 (by omega)⟩

/-- C9: the retail-analytics density classification agrees with the core
`calculate_crowd_density` for every person count from 0 through 10, and
above 10 the retail variant returns VERY_HIGH where the core returns
HIGH. -/
theorem C9_retail_core_agreement (n : Nat) :
    (n ≤ 10 → analyze_crowd_behavior_density n = calculate_crowd_density n) ∧
    (10 < n → analyze_crowd_behavior_density n = "VERY_HIGH" ∧
      calculate_crowd_density n = "HIGH") := by
  constructor <;>
    (intro h
     unfold analyze_crowd_behavior_density calculate_crowd_density
     split_ifs <;> first | exact ⟨rfl, rfl⟩ | rfl | omega)

/-- Closed witness for C9 at the concrete inputs 7 and 12. -/
theorem C9_retail_core_agreement_witness :
    analyze_crowd_behavior_density 7 = calculate_crowd_density 7 ∧
    analyze_crowd_behavior_density 12 = "VERY_HIGH" :=
  ⟨(C9_retail_core_agreement 7).1 (by omega),
   ((C9_retail_core_agreement 12).2 (by omega)).1⟩

/-- C5: both detector adapters return the empty list — never an error —
for a degenerate (`None`) frame, when the underlying model raises
(the adapter's `except` swallows it), and when the model finds no
detections on a valid frame.  The adapters are total Lean functions, so
no modelled path raises. -/
theorem C5_detectors_degenerate_empty (pr : Except String (List RawBox))
    (fres : Except String (List RelBox)) (t : ℚ) (frm : Frame)
    (msg msg2 : String) :
    detect_persons none pr = [] ∧
    detect_faces t none fres = [] ∧
    detect_persons (some frm) (.error msg) = [] ∧
    detect_faces t (some frm) (.error msg2) = [] ∧
    detect_persons (some frm) (.ok []) = [] ∧
    detect_faces t (some frm) (.ok []) = [] :=
  ⟨rfl, rfl, rfl, rfl, rfl, rfl⟩

/-- C6 counterexample: on a 100×100 frame, a model box with negative
coordinates passes through `detect_persons` int-cast but unclamped
(`x1 = -5 < 0`), and a MediaPipe relative box with `xmin = 2` makes
`detect_faces` emit `x1 = 200 > x2 = 100`, so neither `0 ≤ x1` for
persons nor `x1 < x2` for faces holds. -/
theorem C6_unclamped_bbox_cex :
    (detect_persons (some ⟨100, 100⟩)
        (.ok [⟨-5, -5, 10, 10, 9 / 10⟩])).map Detection.bbox =
      [[-5, -5, 10, 10]] ∧
    ¬ (0 ≤ (-5 : Int)) ∧
    (detect_faces (3 / 10) (some ⟨100, 100⟩)
        (.ok [⟨2, 0, 1 / 10, 1 / 10, 9 / 10⟩])).map Detection.bbox =
      [[200, 0, 100, 10]] ∧
    ¬ ((200 : Int) < 100) := by
  refine ⟨?_, by norm_num, ?_, by norm_num⟩
  · norm_num [detect_persons, int_trunc, List.filter_cons]
  · norm_num [detect_faces, int_trunc, List.filter_cons]

/-- C6 amended: every Detection produced by `detect_faces` has a bbox
`[x1, y1, x2, y2]` with `0 ≤ x1`, `0 ≤ y1`, `x2 ≤ w`, `y2 ≤ h`
(clamped to the frame bounds); strict ordering `x1 < x2`, `y1 < y2` is
not enforced, and `detect_persons` applies no clamping at all. -/
theorem C6_face_bbox_clamped (t : ℚ) (fr : Frame)
    (boxes : List RelBox) (d : Detection)
    (hd : d ∈ detect_faces t (some fr) (.ok boxes)) :
    ∃ x y x2 y2 : Int, d.bbox = [x, y, x2, y2] ∧
      0 ≤ x ∧ 0 ≤ y ∧ x2 ≤ (fr.width : Int) ∧ y2 ≤ (fr.height : Int) := by
  unfold detect_faces at hd
  simp only [List.mem_map] at hd
  obtain ⟨b, -, rfl⟩ := hd
  exact ⟨_, _, _, _, rfl, le_max_left 0 _, le_max_left 0 _,
    min_le_right _ _, min_le_right _ _⟩

/-- Closed witness for C6 amended, applied to one concrete face
detection on a 100×100 frame. -/
theorem C6_face_bbox_clamped_witness :
    ∃ x y x2 y2 : Int,
      (Detection.mk [10, 10, 60, 60] (9 / 10) "face").bbox = [x, y, x2, y2] ∧
      0 ≤ x ∧ 0 ≤ y ∧ x2 ≤ ((100 : Nat) : Int) ∧ y2 ≤ ((100 : Nat) : Int) :=
  C6_face_bbox_clamped (3 / 10) ⟨100, 100⟩ [⟨1 / 10, 1 / 10, 1 / 2, 1 / 2, 9 / 10⟩]
    (Detection.mk [10, 10, 60, 60] (9 / 10) "face")
    (by norm_num [detect_faces, int_trunc, List.filter_cons])

/-- C3 counterexample: `stop_processing` does not reset the stats record.
Starting from a state whose stats show 5 people and MEDIUM density, the
state after `stop_processing` still shows 5 people and MEDIUM density —
not the zeroed/EMPTY snapshot the claim requires. -/
theorem C3_stats_not_reset_cex :
    (stop_processing (SystemState.mk true true false
      (Stats.mk 5 2 "MEDIUM" "CAUTION" "Frame 30: 5 people, 2 faces"
        "Processing Video" none [] []))).stats.person_count = 5 ∧
    (stop_processing (SystemState.mk true true false
      (Stats.mk 5 2 "MEDIUM" "CAUTION" "Frame 30: 5 people, 2 faces"
        "Processing Video" none [] []))).stats.crowd_density = "MEDIUM" ∧
    (5 : Nat) ≠ 0 ∧ "MEDIUM" ≠ "EMPTY" :=
  ⟨rfl, rfl, by decide, by decide⟩

/-- C3 amended: `stop_processing` clears the `is_monitoring` flag and
leaves the published stats record exactly as it was before the call; the
stats are zeroed/EMPTY afterwards only if they already were. -/
theorem C3_stop_leaves_stats (s : SystemState) :
    (stop_processing s).is_monitoring = false ∧
    (stop_processing s).stats = s.stats :=
  ⟨rfl, rfl⟩

/-- C4: evaluation at the failing input.  From a fresh state, an
`initialize_models` call in which `load_detection_modules` returns the
`None` triple returns `False` but leaves `is_initializing = True`; a
subsequent call with the import failure fixed still returns `False` and
changes nothing, so the loader is permanently blocked — contradicting
the claim (and the retriable-failure behaviour of the `except` path). -/
theorem C4_import_failure_blocks_retry :
    (init_models ⟨false, false⟩ ⟨false, false, false, initial_stats⟩).1 = false ∧
    (init_models ⟨false, false⟩ ⟨false, false, false, initial_stats⟩).2.models_loaded = false ∧
    (init_models ⟨false, false⟩ ⟨false, false, false, initial_stats⟩).2.is_initializing = true ∧
    (init_models ⟨true, false⟩
      (init_models ⟨false, false⟩ ⟨false, false, false, initial_stats⟩).2).1 = false ∧
    (init_models ⟨true, false⟩
      (init_models ⟨false, false⟩ ⟨false, false, false, initial_stats⟩).2).2 =
      (init_models ⟨false, false⟩ ⟨false, false, false, initial_stats⟩).2 :=
  ⟨rfl, rfl, rfl, rfl, rfl⟩

/-- C10: `process_image` is atomic on failure — every failing call
(models not loaded, image not loadable, or a pipeline exception) returns
`success = false` and leaves the stats record untouched, and the stats
record changes only when the call succeeds. -/
theorem C10_process_image_atomic (env : ImageEnv) (s : SystemState) :
    ((process_image env s).1.success = false →
      (process_image env s).2.stats = s.stats) ∧
    (s.models_loaded = false → (process_image env s).1.success = false) ∧
    (env.image_loads = false → (process_image env s).1.success = false) ∧
    (env.pipeline_raises = true → (process_image env s).1.success = false) ∧
    ((process_image env s).2.stats ≠ s.stats →
      (process_image env s).1.success = true) := by
  unfold process_image
  split_ifs <;> simp_all

/-- Helper for C8: the `i`-th output of a run of the `process_video`
loop depends only on the frame number `start + i` — boxes are drawn
exactly on the frames where detections are recomputed, and the
loop-carried state is never used for drawing. -/
theorem run_frames_output (dp df : Nat → List Detection) (k : Nat) :
    ∀ (st : VideoLoopState) (start i : Nat), i < k →
      (run_frames dp df st start k).2[i]? =
        some { frame_num := start + i
               detections_recomputed := (start + i) % 10 == 0
               drawn_person_boxes :=
                 if (start + i) % 10 = 0 then dp (start + i) else []
               drawn_face_boxes :=
                 if (start + i) % 10 = 0 then df (start + i) else [] } := by
  induction k with
  | zero => intro st start i h; omega
  | succ k ih =>
    intro st start i h
    match i with
    | 0 =>
      simp only [run_frames, List.getElem?_cons_zero, Nat.add_zero,
        Option.some.injEq]
      unfold process_video_frame
      by_cases hc : start % 10 = 0 <;> simp [hc]
    | Nat.succ j =>
      have hj : j < k := by omega
      have hrw : start + 1 + j = start + (j + 1) := by omega
      simp only [run_frames, List.getElem?_cons_succ]
      rw [ih _ (start + 1) j hj, hrw]

/-- C8 counterexample: with a detector that always finds one person, the
frame-10 output draws that box, but the frame-11 output draws nothing —
even though the loop-carried detection variables still hold the stale
box — refuting the claim that stale detections are reused for drawing on
the 9 intermediate frames. -/
theorem C8_stale_not_drawn_cex :
    (process_video_outputs
        (fun _ => [⟨[1, 2, 3, 4], 9 / 10, "person"⟩]) (fun _ => []) 11)[9]? =
      some ⟨10, true, [⟨[1, 2, 3, 4], 9 / 10, "person"⟩], []⟩ ∧
    (process_video_outputs
        (fun _ => [⟨[1, 2, 3, 4], 9 / 10, "person"⟩]) (fun _ => []) 11)[10]? =
      some ⟨11, false, [], []⟩ ∧
    (run_frames (fun _ => [⟨[1, 2, 3, 4], 9 / 10, "person"⟩]) (fun _ => [])
        ⟨[], []⟩ 1 11).1.person_detections =
      [⟨[1, 2, 3, 4], 9 / 10, "person"⟩] ∧
    ([] : List Detection).length ≠
      ([⟨[1, 2, 3, 4], (9 : ℚ) / 10, "person"⟩] : List Detection).length :=
  ⟨rfl, rfl, rfl, by decide⟩

/-- C8 amended: in `process_video`, detections are recomputed only on
every 10th frame and bounding boxes are drawn only on those same frames;
the 9 intermediate frames are written with no boxes at all (the stale
detections are kept in the loop variables but not reused for drawing). -/
theorem C8_draw_only_on_tenth (dp df : Nat → List Detection)
    (total i : Nat) (h : i < total) :
    (process_video_outputs dp df total)[i]? =
      some { frame_num := i + 1
             detections_recomputed := (i + 1) % 10 == 0
             drawn_person_boxes := if (i + 1) % 10 = 0 then dp (i + 1) else []
             drawn_face_boxes := if (i + 1) % 10 = 0 then df (i + 1) else [] } := by
  unfold process_video_outputs
  rw [run_frames_output dp df total ⟨[], []⟩ 1 i h]
  have hrw : 1 + i = i + 1 := by omega
  rw [hrw]

/-- Closed witness for C8 amended at frame 11 of an 11-frame run. -/
theorem C8_draw_only_on_tenth_witness :
    (process_video_outputs (fun _ => []) (fun _ => []) 11)[10]? =
      some ⟨11, false, [], []⟩ :=
  C8_draw_only_on_tenth (fun _ => []) (fun _ => []) 11 10 (by omega)

/-- Closed witness for C10: with models not loaded, a concrete
`process_image` call fails and leaves the initial stats unchanged. -/
theorem C10_process_image_atomic_witness :
    (process_image ⟨true, false, [], [], "t"⟩
      ⟨false, false, false, initial_stats⟩).1.success = false ∧
    (process_image ⟨true, false, [], [], "t"⟩
      ⟨false, false, false, initial_stats⟩).2.stats = initial_stats :=
  ⟨(C10_process_image_atomic ⟨true, false, [], [], "t"⟩
      ⟨false, false, false, initial_stats⟩).2.1 rfl,
   (C10_process_image_atomic ⟨true, false, [], [], "t"⟩
      ⟨false, false, false, initial_stats⟩).1
     ((C10_process_image_atomic ⟨true, false, [], [], "t"⟩
        ⟨false, false, false, initial_stats⟩).2.1 rfl)⟩

end CrowdControl
